import Mathlib

/-!
Verification of the Age-X backend's `age_check` endpoint
(`src/backend/app.py`).

The endpoint body is embedded as a total Lean function over an explicit
environment: the two library calls it makes (`base64.b64decode` and
`PIL.Image.open(...).convert("RGB")` followed by `np.array`) and the call
into `age_service.AgeService.detect_and_predict` are fields of an `Env`
record, each returning an explicit outcome (a value, a
`ValueError`-family exception, an `HTTPException`, or some other
exception).  The control flow of the Python function — the emptiness
check, the inner `try/except (ValueError, UnidentifiedImageError)`, the
duck-typed `hasattr(result, "get") and result.get("error")` branch, and
the outer `except HTTPException` / `except Exception` handlers — is
translated branch for branch.
-/

set_option autoImplicit false

namespace AgeX

/-- Values of the dynamic (Python-like) universe exchanged with the age
service and returned as JSON responses: dictionaries (modelled as ordered
association lists, which is how the literal dicts in `age_check` are
built), strings, booleans, floats (modelled as rationals — the only float
literal in `age_check` is `0.0`, which is exact), the `None` value, and
opaque non-dict objects (which have no `get` attribute). -/
inductive PyVal : Type where
  | dict (entries : List (String × PyVal))
  | str (s : String)
  | boolv (b : Bool)
  | floatv (q : ℚ)
  | pynone
  | obj (tag : String)

/-- Python truthiness of a `PyVal`, as used by
`if hasattr(result, "get") and result.get("error"):`. -/
def truthy : PyVal → Bool
  | .dict l => !l.isEmpty
  | .str s => s != ""
  | .boolv b => b
  | .floatv q => decide (q ≠ 0)
  | .pynone => false
  | .obj _ => true

/-- `hasattr(result, "get")`: in this value universe only dictionaries
carry a `get` attribute. -/
def hasGet : PyVal → Bool
  | .dict _ => true
  | _ => false

/-- `result.get(k)`: first-match lookup, `None` when the key is absent or
the receiver is not a dictionary (the code only calls it under the
`hasattr` guard). -/
def pyGet : PyVal → String → PyVal
  | .dict l, k => (List.lookup k l).getD .pynone
  | _, _ => .pynone

/-- Outcome of one of the two library calls inside the inner `try`:
a normal value, an exception of the `(ValueError, UnidentifiedImageError)`
family that the inner `except` clause catches (this includes
`binascii.Error`, a `ValueError` subclass raised by `base64.b64decode`),
or any other exception, which escapes the inner `try` and reaches the
outer `except Exception` handler. -/
inductive LibResult (α : Type) : Type where
  | ok (a : α)
  | valueError
  | otherError (msg : String)

/-- Outcome of `age_service.detect_and_predict`: a returned value, a
raised `HTTPException` (caught by `except HTTPException as he: raise he`
and re-raised), or any other raised exception (caught by
`except Exception`). -/
inductive ServiceOutcome : Type where
  | ok (result : PyVal)
  | raiseHTTP (status : Nat) (detail : String)
  | raiseExc (msg : String)

/-- The environment `age_check` runs in: the behaviour of
`base64.b64decode` on the payload string, of
`np.array(Image.open(BytesIO(bytes)).convert("RGB"))` on the decoded
bytes, and of `age_service.detect_and_predict` on the resulting array.
Byte strings and arrays are modelled as `List Nat`. -/
structure Env : Type where
  b64decode : String → LibResult (List Nat)
  pilToRGBArray : List Nat → LibResult (List Nat)
  detect_and_predict : List Nat → ServiceOutcome

/-- What `age_check` delivers to its caller: a raised `HTTPException`
with a status code and detail string, or a normal (HTTP-success) return
value. -/
inductive AgeCheckResult : Type where
  | httpError (status : Nat) (detail : String)
  | response (v : PyVal)

/-- The fail-safe dictionary literal
`{"age_group": "Kid", "confidence": 0.0, "forced_safety": True, key: msg}`
built by both fallback branches of `age_check`; the no-face branch uses
`key = "msg"`, the outer exception handler uses `key = "error"`. -/
def kidFailSafe (key : String) (msg : PyVal) : PyVal :=
  .dict [("age_group", .str "Kid"), ("confidence", .floatv 0),
         ("forced_safety", .boolv true), (key, msg)]

/-- The body of `age_check` (src/backend/app.py, lines 57–96), branch for
branch:
1. `if not payload.image: raise HTTPException(400, "Empty image payload")`;
2. inner `try` around decode: `(ValueError, UnidentifiedImageError)`
   becomes `HTTPException(400, "Invalid image format")`, any other
   exception falls through to the outer handler;
3. `result = age_service.detect_and_predict(image_np)`;
4. `if hasattr(result, "get") and result.get("error"):` returns the
   fail-safe dict with the error text under `"msg"`; otherwise `result`
   is returned verbatim;
5. outer `except HTTPException as he: raise he`, and `except Exception`
   returns the fail-safe dict with `"error": "Internal Processing Error"`. -/
def age_check (env : Env) (image : String) : AgeCheckResult :=
  if image = "" then
    .httpError 400 "Empty image payload"
  else
    match env.b64decode image with
    | .valueError => .httpError 400 "Invalid image format"
    | .otherError _ => .response (kidFailSafe "error" (.str "Internal Processing Error"))
    | .ok image_bytes =>
      match env.pilToRGBArray image_bytes with
      | .valueError => .httpError 400 "Invalid image format"
      | .otherError _ => .response (kidFailSafe "error" (.str "Internal Processing Error"))
      | .ok image_np =>
        match env.detect_and_predict image_np with
        | .raiseHTTP s d => .httpError s d
        | .raiseExc _ => .response (kidFailSafe "error" (.str "Internal Processing Error"))
        | .ok result =>
          if hasGet result && truthy (pyGet result "error") then
            .response (kidFailSafe "msg" (pyGet result "error"))
          else
            .response result

/-- The value is a Python string. -/
def isStrVal : PyVal → Bool
  | .str _ => true
  | _ => false

/-- The value is a Python float. -/
def isFloatVal : PyVal → Bool
  | .floatv _ => true
  | _ => false

/-- The value is a Python bool. -/
def isBoolVal : PyVal → Bool
  | .boolv _ => true
  | _ => false

/-- No key occurs twice. -/
def keyNodup : List String → Bool
  | [] => true
  | k :: ks => !(ks.contains k) && keyNodup ks

/-- The dictionary has key `k` and its value satisfies `p`. -/
def fieldIs (l : List (String × PyVal)) (k : String) (p : PyVal → Bool) : Bool :=
  match List.lookup k l with
  | some v => p v
  | Option.none => false

/-- The message/reason keys a Decision may optionally carry. -/
def optKeys : List String := ["msg", "error", "reason"]

/-- A well-formed Decision record in the sense of the external interface:
a dictionary with an `age_group` string, a `confidence` float, a
`forced_safety` bool, and at most one optional message/reason key holding
a string; no duplicate and no other keys. -/
def isDecision : PyVal → Bool
  | .dict l =>
    keyNodup (l.map Prod.fst)
    && fieldIs l "age_group" isStrVal
    && fieldIs l "confidence" isFloatVal
    && fieldIs l "forced_safety" isBoolVal
    && (l.map Prod.fst).all
        (fun k => ("age_group" :: "confidence" :: "forced_safety" :: optKeys).contains k)
    && Nat.ble ((l.map Prod.fst).filter (fun k => optKeys.contains k)).length 1
    && l.all (fun p => !(optKeys.contains p.1) || isStrVal p.2)
  | _ => false

/-- The record's `forced_safety` field is the boolean `True`. -/
def forcedSafetyIsTrue (v : PyVal) : Bool :=
  match pyGet v "forced_safety" with
  | .boolv b => b
  | _ => false

/-- The record's `age_group` field is the string `"Kid"`. -/
def bandIsKid (v : PyVal) : Bool :=
  match pyGet v "age_group" with
  | .str s => s == "Kid"
  | _ => false

/-- The record's `confidence` field is the float `0.0`. -/
def confIsZero (v : PyVal) : Bool :=
  match pyGet v "confidence" with
  | .floatv q => decide (q = 0)
  | _ => false

/-- Modelled from the spec: the repository's `age_service.py` (imported by
`app.py` but not present under `src/`) either reports a fault through a
truthy string under the `"error"` key ("no verifiable face" and similar),
or returns a well-formed Decision obeying the spec's invariant
(`forced_safety == true` only with the maximally restrictive band and
confidence `0.0`), or raises an ordinary (non-`HTTPException`) exception
such as the spec's `InferenceError`. -/
def SpecOutcomeOK : ServiceOutcome → Prop
  | .raiseHTTP _ _ => False
  | .raiseExc _ => True
  | .ok r =>
      (hasGet r = true ∧ isStrVal (pyGet r "error") = true ∧ truthy (pyGet r "error") = true)
      ∨ (isDecision r = true
         ∧ (forcedSafetyIsTrue r = true → bandIsKid r = true ∧ confIsZero r = true))

/-- Modelled from the spec: every outcome `detect_and_predict` can
produce satisfies `SpecOutcomeOK`. -/
def SpecService (env : Env) : Prop :=
  ∀ img : List Nat, SpecOutcomeOK (env.detect_and_predict img)




/-- A concrete environment used to exercise `age_check`: `"bad!"` is not
valid base64 (`binascii.Error`), `"=="` decodes to the empty byte string,
any other payload decodes to a three-byte string; PIL rejects the empty
byte string; the service behaves as the fixed outcome `o`. -/
def testEnv (o : ServiceOutcome) : Env where
  b64decode := fun s =>
    if s = "bad!" then .valueError else if s = "==" then .ok [] else .ok [1, 2, 3]
  pilToRGBArray := fun bs => if bs.isEmpty then .valueError else .ok bs
  detect_and_predict := fun _ => o

/-- Keys of a dictionary value, in insertion order. -/
def pyKeys : PyVal → List String
  | .dict l => l.map Prod.fst
  | _ => []

/-- String-valued fields of a dictionary value, in insertion order. -/
def strFields : PyVal → List String
  | .dict l => l.filterMap (fun p => match p.2 with | .str s => some s | _ => Option.none)
  | _ => []

lemma exists_str_of_isStrVal {v : PyVal} (h : isStrVal v = true) : ∃ s, v = .str s := by
  cases v <;> simp [isStrVal] at h ⊢

lemma all_of_lookup {p : String × PyVal → Bool} :
    ∀ {l : List (String × PyVal)} {k : String} {v : PyVal},
      l.all p = true → List.lookup k l = some v → p (k, v) = true := by
  intro l
  induction l with
  | nil => intro k v _ hl; simp [List.lookup] at hl
  | cons hd tl ih =>
    intro k v hall hl
    obtain ⟨a, b⟩ := hd
    rw [List.all_cons, Bool.and_eq_true] at hall
    rw [List.lookup] at hl
    by_cases hk : (k == a) = true
    · rw [hk] at hl
      have hka : k = a := eq_of_beq hk
      cases hl
      rw [hka]
      exact hall.1
    · rw [Bool.not_eq_true] at hk
      rw [hk] at hl
      exact ih hall.2 hl

lemma isDecision_optStr {l : List (String × PyVal)} (h : isDecision (.dict l) = true) :
    l.all (fun p => !(optKeys.contains p.1) || isStrVal p.2) = true := by
  have h' : (keyNodup (l.map Prod.fst)
      && fieldIs l "age_group" isStrVal
      && fieldIs l "confidence" isFloatVal
      && fieldIs l "forced_safety" isBoolVal
      && (l.map Prod.fst).all
          (fun k => ("age_group" :: "confidence" :: "forced_safety" :: optKeys).contains k)
      && Nat.ble ((l.map Prod.fst).filter (fun k => optKeys.contains k)).length 1
      && l.all (fun p => !(optKeys.contains p.1) || isStrVal p.2)) = true := h
  simp only [Bool.and_eq_true] at h'
  exact h'.2

lemma error_entry_string {l : List (String × PyVal)}
    (hd : isDecision (.dict l) = true)
    (ht : truthy (pyGet (.dict l) "error") = true) :
    ∃ s, pyGet (.dict l) "error" = .str s ∧ s ≠ "" := by
  have hall := isDecision_optStr hd
  rcases hl : List.lookup "error" l with _ | w
  · rw [pyGet, hl] at ht
    simp [Option.getD, truthy] at ht
  · have hp := all_of_lookup hall hl
    have hopt : optKeys.contains "error" = true := by decide
    rw [hopt] at hp
    simp only [Bool.not_true, Bool.false_or] at hp
    obtain ⟨s, hw⟩ := exists_str_of_isStrVal hp
    refine ⟨s, ?_, ?_⟩
    · rw [pyGet, hl, hw]; rfl
    · rw [pyGet, hl, hw] at ht
      simp only [Option.getD, truthy, bne_iff_ne, ne_eq] at ht
      exact ht

lemma kidFailSafe_msg_decision (s : String) : isDecision (kidFailSafe "msg" (.str s)) = true := rfl

lemma kidFailSafe_error_decision (s : String) :
    isDecision (kidFailSafe "error" (.str s)) = true := rfl

lemma kidFailSafe_band (k : String) (v : PyVal) : bandIsKid (kidFailSafe k v) = true := rfl

lemma kidFailSafe_conf (k : String) (v : PyVal) : confIsZero (kidFailSafe k v) = true := rfl

lemma kidFailSafe_forced (k : String) (v : PyVal) :
    forcedSafetyIsTrue (kidFailSafe k v) = true := rfl

lemma specOutcomeOK_ok_elim {r : PyVal} (h : SpecOutcomeOK (.ok r)) :
    (hasGet r = true ∧ isStrVal (pyGet r "error") = true ∧ truthy (pyGet r "error") = true)
    ∨ (isDecision r = true
       ∧ (forcedSafetyIsTrue r = true → bandIsKid r = true ∧ confIsZero r = true)) := h

lemma specOutcomeOK_ok_error {r : PyVal} (h1 : hasGet r = true)
    (h2 : isStrVal (pyGet r "error") = true) (h3 : truthy (pyGet r "error") = true) :
    SpecOutcomeOK (.ok r) := Or.inl ⟨h1, h2, h3⟩

lemma specOutcomeOK_ok_decision {r : PyVal} (h1 : isDecision r = true)
    (h2 : forcedSafetyIsTrue r = true → bandIsKid r = true ∧ confIsZero r = true) :
    SpecOutcomeOK (.ok r) := Or.inr ⟨h1, h2⟩

lemma specOutcomeOK_raiseExc (m : String) : SpecOutcomeOK (.raiseExc m) := trivial

lemma specOutcomeOK_no_http {s : Nat} {d : String} (h : SpecOutcomeOK (.raiseHTTP s d)) :
    False := h

lemma age_check_empty (env : Env) : age_check env "" = .httpError 400 "Empty image payload" := by
  unfold age_check
  rw [if_pos rfl]

lemma age_check_b64_valueError (env : Env) (img : String) (h0 : img ≠ "")
    (hb : env.b64decode img = .valueError) :
    age_check env img = .httpError 400 "Invalid image format" := by
  unfold age_check
  simp only [if_neg h0, hb]

lemma age_check_b64_otherError (env : Env) (img : String) (m : String) (h0 : img ≠ "")
    (hb : env.b64decode img = .otherError m) :
    age_check env img = .response (kidFailSafe "error" (.str "Internal Processing Error")) := by
  unfold age_check
  simp only [if_neg h0, hb]

lemma age_check_pil_valueError (env : Env) (img : String) (bs : List Nat) (h0 : img ≠ "")
    (hb : env.b64decode img = .ok bs) (hp : env.pilToRGBArray bs = .valueError) :
    age_check env img = .httpError 400 "Invalid image format" := by
  unfold age_check
  simp only [if_neg h0, hb, hp]

lemma age_check_pil_otherError (env : Env) (img : String) (bs : List Nat) (m : String)
    (h0 : img ≠ "") (hb : env.b64decode img = .ok bs)
    (hp : env.pilToRGBArray bs = .otherError m) :
    age_check env img = .response (kidFailSafe "error" (.str "Internal Processing Error")) := by
  unfold age_check
  simp only [if_neg h0, hb, hp]

lemma age_check_service_raiseHTTP (env : Env) (img : String) (bs arr : List Nat)
    (s : Nat) (d : String) (h0 : img ≠ "") (hb : env.b64decode img = .ok bs)
    (hp : env.pilToRGBArray bs = .ok arr)
    (hsvc : env.detect_and_predict arr = .raiseHTTP s d) :
    age_check env img = .httpError s d := by
  unfold age_check
  simp only [if_neg h0, hb, hp, hsvc]

lemma age_check_service_raiseExc (env : Env) (img : String) (bs arr : List Nat)
    (m : String) (h0 : img ≠ "") (hb : env.b64decode img = .ok bs)
    (hp : env.pilToRGBArray bs = .ok arr)
    (hsvc : env.detect_and_predict arr = .raiseExc m) :
    age_check env img = .response (kidFailSafe "error" (.str "Internal Processing Error")) := by
  unfold age_check
  simp only [if_neg h0, hb, hp, hsvc]

lemma age_check_service_ok_error (env : Env) (img : String) (bs arr : List Nat)
    (r : PyVal) (h0 : img ≠ "") (hb : env.b64decode img = .ok bs)
    (hp : env.pilToRGBArray bs = .ok arr) (hsvc : env.detect_and_predict arr = .ok r)
    (hcond : (hasGet r && truthy (pyGet r "error")) = true) :
    age_check env img = .response (kidFailSafe "msg" (pyGet r "error")) := by
  unfold age_check
  simp only [if_neg h0, hb, hp, hsvc, hcond, if_true]

lemma age_check_service_ok_verbatim (env : Env) (img : String) (bs arr : List Nat)
    (r : PyVal) (h0 : img ≠ "") (hb : env.b64decode img = .ok bs)
    (hp : env.pilToRGBArray bs = .ok arr) (hsvc : env.detect_and_predict arr = .ok r)
    (hcond : (hasGet r && truthy (pyGet r "error")) = false) :
    age_check env img = .response r := by
  unfold age_check
  simp only [if_neg h0, hb, hp, hsvc, hcond, Bool.false_eq_true, if_false]

/-- Master case analysis of `age_check` under the spec-modelled service:
the outcome is a 400-status `HTTPException` or a normal response carrying
a well-formed Decision satisfying the forced-safety invariant. -/
lemma age_check_spec_shape (env : Env) (hs : SpecService env) (img : String) :
    (∃ d, age_check env img = .httpError 400 d)
    ∨ (∃ v, age_check env img = .response v ∧ isDecision v = true
        ∧ (forcedSafetyIsTrue v = true → bandIsKid v = true ∧ confIsZero v = true)) := by
  by_cases h0 : img = ""
  · subst h0
    exact Or.inl ⟨_, age_check_empty env⟩
  rcases hb : env.b64decode img with bs | _ | m
  · rcases hp : env.pilToRGBArray bs with arr | _ | m
    · rcases hsvc : env.detect_and_predict arr with r | ⟨s, d⟩ | m
      · have hok := specOutcomeOK_ok_elim (hsvc ▸ hs arr)
        rcases hc : hasGet r && truthy (pyGet r "error") with _ | _
        · rcases hok with ⟨hg, _, ht⟩ | ⟨hd, hinv⟩
          · rw [Bool.and_eq_false_iff] at hc
            rcases hc with hc | hc
            · rw [hg] at hc; cases hc
            · rw [ht] at hc; cases hc
          · exact Or.inr ⟨r, age_check_service_ok_verbatim env img bs arr r h0 hb hp hsvc hc,
              hd, hinv⟩
        · have hresp := age_check_service_ok_error env img bs arr r h0 hb hp hsvc hc
          rcases hok with ⟨_, hstr, _⟩ | ⟨hd, _⟩
          · obtain ⟨s, hes⟩ := exists_str_of_isStrVal hstr
            rw [hes] at hresp
            exact Or.inr ⟨_, hresp, kidFailSafe_msg_decision s,
              fun _ => ⟨kidFailSafe_band _ _, kidFailSafe_conf _ _⟩⟩
          · rw [Bool.and_eq_true] at hc
            rcases r with l | s | b | q | _ | t
            · obtain ⟨s, hes, _⟩ := error_entry_string hd hc.2
              rw [hes] at hresp
              exact Or.inr ⟨_, hresp, kidFailSafe_msg_decision s,
                fun _ => ⟨kidFailSafe_band _ _, kidFailSafe_conf _ _⟩⟩
            all_goals simp [hasGet] at hc
      · have h := hs arr
        rw [hsvc] at h
        exact (specOutcomeOK_no_http h).elim
      · exact Or.inr ⟨_, age_check_service_raiseExc env img bs arr m h0 hb hp hsvc,
          kidFailSafe_error_decision _,
          fun _ => ⟨kidFailSafe_band _ _, kidFailSafe_conf _ _⟩⟩
    · exact Or.inl ⟨_, age_check_pil_valueError env img bs h0 hb hp⟩
    · exact Or.inr ⟨_, age_check_pil_otherError env img bs m h0 hb hp,
        kidFailSafe_error_decision _,
        fun _ => ⟨kidFailSafe_band _ _, kidFailSafe_conf _ _⟩⟩
  · exact Or.inl ⟨_, age_check_b64_valueError env img h0 hb⟩
  · exact Or.inr ⟨_, age_check_b64_otherError env img m h0 hb,
      kidFailSafe_error_decision _,
      fun _ => ⟨kidFailSafe_band _ _, kidFailSafe_conf _ _⟩⟩


/-- The dict the age service reports "no verifiable face" through,
per the spec's no-face terminal outcome. -/
def noFaceResult : PyVal := .dict [("error", .str "no face detected")]

/-- C1: for every input payload, `age_check` terminates with either a
structured Decision record or an HTTP 400 `HTTPException`; no exception
raised by decoding or by the (spec-modelled) age service propagates
unhandled past the boundary. -/
theorem c1_decision_or_validation_fault (env : Env) (hs : SpecService env) (img : String) :
    (∃ d, age_check env img = .httpError 400 d)
    ∨ (∃ v, age_check env img = .response v ∧ isDecision v = true) := by
  rcases age_check_spec_shape env hs img with h | ⟨v, hv, hd, _⟩
  · exact Or.inl h
  · exact Or.inr ⟨v, hv, hd⟩

theorem c1_decision_or_validation_fault_witness :
    (∃ d, age_check (testEnv (.ok noFaceResult)) "aW1n" = .httpError 400 d)
    ∨ (∃ v, age_check (testEnv (.ok noFaceResult)) "aW1n" = .response v
        ∧ isDecision v = true) :=
  c1_decision_or_validation_fault (testEnv (.ok noFaceResult))
    (fun _ => specOutcomeOK_ok_error rfl rfl rfl) "aW1n"

/-- C2: in every Decision returned by `age_check` whose `forced_safety`
field is true, the band is the maximally restrictive `"Kid"` and the
confidence is `0.0` (service results spec-modelled). -/
theorem c2_forced_safety_kid_zero (env : Env) (hs : SpecService env) (img : String)
    (v : PyVal) (hresp : age_check env img = .response v)
    (hf : forcedSafetyIsTrue v = true) :
    bandIsKid v = true ∧ confIsZero v = true := by
  rcases age_check_spec_shape env hs img with ⟨d, hd⟩ | ⟨w, hw, _, hinv⟩
  · rw [hresp] at hd
    exact AgeCheckResult.noConfusion hd
  · rw [hresp] at hw
    injection hw with hvw
    rw [hvw]
    exact hinv (hvw ▸ hf)

theorem c2_forced_safety_kid_zero_witness :
    bandIsKid (kidFailSafe "msg" (.str "no face detected")) = true
    ∧ confIsZero (kidFailSafe "msg" (.str "no face detected")) = true :=
  c2_forced_safety_kid_zero (testEnv (.ok noFaceResult))
    (fun _ => specOutcomeOK_ok_error rfl rfl rfl) "aW1n"
    (kidFailSafe "msg" (.str "no face detected")) rfl rfl

/-- C3: a payload whose image field decodes to the empty byte sequence —
including the empty string itself — always yields the HTTP 400
client-input fault and never a Decision (the hypothesis records that PIL
raises `UnidentifiedImageError` on an empty byte string). -/
theorem c3_empty_bytes_client_fault (env : Env) (img : String)
    (hpil : env.pilToRGBArray [] = .valueError)
    (h : img = "" ∨ env.b64decode img = .ok ([] : List Nat)) :
    (∃ d, age_check env img = .httpError 400 d)
    ∧ ∀ v, age_check env img ≠ .response v := by
  by_cases h0 : img = ""
  · subst h0
    refine ⟨⟨_, age_check_empty env⟩, ?_⟩
    intro v hv
    rw [age_check_empty env] at hv
    exact AgeCheckResult.noConfusion hv
  · rcases h with h | h
    · exact absurd h h0
    · have he := age_check_pil_valueError env img [] h0 h hpil
      refine ⟨⟨_, he⟩, ?_⟩
      intro v hv
      rw [he] at hv
      exact AgeCheckResult.noConfusion hv

theorem c3_empty_bytes_client_fault_witness :
    (∃ d, age_check (testEnv (.ok noFaceResult)) "==" = .httpError 400 d)
    ∧ ∀ v, age_check (testEnv (.ok noFaceResult)) "==" ≠ .response v :=
  c3_empty_bytes_client_fault (testEnv (.ok noFaceResult)) "==" rfl (Or.inr rfl)

/-- C4: an undecodable image (the `(ValueError, UnidentifiedImageError)`
family at the decode step) yields the HTTP 400 client-input fault, while
a downstream inference fault yields a forced-safety Decision returned
with HTTP success — the two are distinguished. -/
theorem c4_decode_fault_vs_inference_fault (e₁ e₂ : Env) (img₁ img₂ : String)
    (bs₁ bs₂ arr : List Nat) (m : String)
    (h₁ : img₁ ≠ "") (hb₁ : e₁.b64decode img₁ = .ok bs₁)
    (hp₁ : e₁.pilToRGBArray bs₁ = .valueError)
    (h₂ : img₂ ≠ "") (hb₂ : e₂.b64decode img₂ = .ok bs₂)
    (hp₂ : e₂.pilToRGBArray bs₂ = .ok arr)
    (hx : e₂.detect_and_predict arr = .raiseExc m) :
    age_check e₁ img₁ = .httpError 400 "Invalid image format"
    ∧ age_check e₂ img₂ = .response (kidFailSafe "error" (.str "Internal Processing Error"))
    ∧ forcedSafetyIsTrue (kidFailSafe "error" (.str "Internal Processing Error")) = true
    ∧ ∀ s d, (AgeCheckResult.response (kidFailSafe "error" (.str "Internal Processing Error"))
        ≠ .httpError s d) := by
  refine ⟨age_check_pil_valueError e₁ img₁ bs₁ h₁ hb₁ hp₁,
    age_check_service_raiseExc e₂ img₂ bs₂ arr m h₂ hb₂ hp₂ hx, rfl, ?_⟩
  intro s d hv
  exact AgeCheckResult.noConfusion hv

theorem c4_decode_fault_vs_inference_fault_witness :
    age_check (testEnv (.ok noFaceResult)) "==" = .httpError 400 "Invalid image format"
    ∧ age_check (testEnv (.raiseExc "model crash")) "aW1n"
      = .response (kidFailSafe "error" (.str "Internal Processing Error"))
    ∧ forcedSafetyIsTrue (kidFailSafe "error" (.str "Internal Processing Error")) = true
    ∧ ∀ s d, (AgeCheckResult.response (kidFailSafe "error" (.str "Internal Processing Error"))
        ≠ .httpError s d) :=
  c4_decode_fault_vs_inference_fault (testEnv (.ok noFaceResult))
    (testEnv (.raiseExc "model crash")) "==" "aW1n" [] [1, 2, 3] [1, 2, 3] "model crash"
    (by decide) rfl rfl (by decide) rfl rfl rfl

/-- C5: when the (spec-modelled) age service reports zero faces through a
truthy `"error"` entry reading `"no face detected"`, the Decision is
exactly `{age_group = "Kid", confidence = 0.0, forced_safety = true}`
with the message `"no face detected"` (stored under the `"msg"` key). -/
theorem c5_no_face_fallback (env : Env) (img : String) (bs arr : List Nat) (r : PyVal)
    (h0 : img ≠ "") (hb : env.b64decode img = .ok bs) (hp : env.pilToRGBArray bs = .ok arr)
    (hsvc : env.detect_and_predict arr = .ok r) (hg : hasGet r = true)
    (he : pyGet r "error" = .str "no face detected") :
    age_check env img
      = .response (.dict [("age_group", .str "Kid"), ("confidence", .floatv 0),
          ("forced_safety", .boolv true), ("msg", .str "no face detected")]) := by
  have hcond : (hasGet r && truthy (pyGet r "error")) = true := by
    rw [hg, he]
    rfl
  have hr := age_check_service_ok_error env img bs arr r h0 hb hp hsvc hcond
  rw [he] at hr
  exact hr

theorem c5_no_face_fallback_witness :
    age_check (testEnv (.ok noFaceResult)) "aW1n"
      = .response (.dict [("age_group", .str "Kid"), ("confidence", .floatv 0),
          ("forced_safety", .boolv true), ("msg", .str "no face detected")]) :=
  c5_no_face_fallback (testEnv (.ok noFaceResult)) "aW1n" [1, 2, 3] [1, 2, 3]
    noFaceResult (by decide) rfl rfl rfl rfl rfl

/-- C6 counterexample: the estimator-fault Decision and the no-face
Decision agree on band, confidence and forced_safety, but their field
names are NOT identical — the no-face branch stores its message under
`"msg"` while the fault branch stores it under `"error"`, so the two
records differ in more than the reason text. -/
theorem c6_counterexample :
    age_check (testEnv (.ok noFaceResult)) "aW1n"
      = .response (kidFailSafe "msg" (.str "no face detected"))
    ∧ age_check (testEnv (.raiseExc "model crash")) "aW1n"
      = .response (kidFailSafe "error" (.str "Internal Processing Error"))
    ∧ pyKeys (kidFailSafe "msg" (.str "no face detected"))
        = ["age_group", "confidence", "forced_safety", "msg"]
    ∧ pyKeys (kidFailSafe "error" (.str "Internal Processing Error"))
        = ["age_group", "confidence", "forced_safety", "error"]
    ∧ pyKeys (kidFailSafe "msg" (.str "no face detected"))
        ≠ pyKeys (kidFailSafe "error" (.str "Internal Processing Error")) :=
  ⟨rfl, rfl, rfl, rfl, by decide⟩

/-- C6 amended: the Decision returned on an Age Estimator fault equals
the no-face fallback Decision in band, confidence and forced_safety, and
differs from it in the reason text and in the key the reason is stored
under — `"msg"` for the no-face fallback, `"error"` for the fault
fallback. -/
theorem c6_amended_fault_matches_noface_triple (e₁ e₂ : Env) (img₁ img₂ : String)
    (bs₁ arr₁ bs₂ arr₂ : List Nat) (r : PyVal) (s m : String)
    (h₁ : img₁ ≠ "") (hb₁ : e₁.b64decode img₁ = .ok bs₁)
    (hp₁ : e₁.pilToRGBArray bs₁ = .ok arr₁)
    (hr : e₁.detect_and_predict arr₁ = .ok r) (hg : hasGet r = true)
    (he : pyGet r "error" = .str s) (hne : s ≠ "")
    (h₂ : img₂ ≠ "") (hb₂ : e₂.b64decode img₂ = .ok bs₂)
    (hp₂ : e₂.pilToRGBArray bs₂ = .ok arr₂)
    (hx : e₂.detect_and_predict arr₂ = .raiseExc m) :
    age_check e₁ img₁ = .response (kidFailSafe "msg" (.str s))
    ∧ age_check e₂ img₂ = .response (kidFailSafe "error" (.str "Internal Processing Error"))
    ∧ (∀ k, k ∈ ["age_group", "confidence", "forced_safety"] →
        pyGet (kidFailSafe "msg" (.str s)) k
          = pyGet (kidFailSafe "error" (.str "Internal Processing Error")) k)
    ∧ pyKeys (kidFailSafe "msg" (.str s))
        ≠ pyKeys (kidFailSafe "error" (.str "Internal Processing Error")) := by
  have hcond : (hasGet r && truthy (pyGet r "error")) = true := by
    rw [hg, he]
    simp [truthy, hne]
  have hr₁ := age_check_service_ok_error e₁ img₁ bs₁ arr₁ r h₁ hb₁ hp₁ hr hcond
  rw [he] at hr₁
  have hkeys : pyKeys (kidFailSafe "msg" (.str s))
      = ["age_group", "confidence", "forced_safety", "msg"] := rfl
  refine ⟨hr₁, age_check_service_raiseExc e₂ img₂ bs₂ arr₂ m h₂ hb₂ hp₂ hx, ?_, ?_⟩
  · intro k hk
    fin_cases hk <;> rfl
  · rw [hkeys]
    decide

theorem c6_amended_fault_matches_noface_triple_witness :
    age_check (testEnv (.ok noFaceResult)) "aW1n"
      = .response (kidFailSafe "msg" (.str "no face detected"))
    ∧ age_check (testEnv (.raiseExc "model crash")) "aW1n"
      = .response (kidFailSafe "error" (.str "Internal Processing Error"))
    ∧ (∀ k, k ∈ ["age_group", "confidence", "forced_safety"] →
        pyGet (kidFailSafe "msg" (.str "no face detected")) k
          = pyGet (kidFailSafe "error" (.str "Internal Processing Error")) k)
    ∧ pyKeys (kidFailSafe "msg" (.str "no face detected"))
        ≠ pyKeys (kidFailSafe "error" (.str "Internal Processing Error")) :=
  c6_amended_fault_matches_noface_triple (testEnv (.ok noFaceResult))
    (testEnv (.raiseExc "model crash")) "aW1n" "aW1n" [1, 2, 3] [1, 2, 3] [1, 2, 3] [1, 2, 3]
    noFaceResult "no face detected" "model crash" (by decide) rfl rfl rfl rfl rfl
    (by decide) (by decide) rfl rfl rfl

/-- C7 counterexample: on an unexpected inference fault the returned
Decision's only string fields are `"Kid"` and
`"Internal Processing Error"` — no field of the record carries the
claimed reason text `"internal processing error"`. -/
theorem c7_counterexample :
    age_check (testEnv (.raiseExc "model crash")) "aW1n"
      = .response (kidFailSafe "error" (.str "Internal Processing Error"))
    ∧ strFields (kidFailSafe "error" (.str "Internal Processing Error"))
        = ["Kid", "Internal Processing Error"]
    ∧ "internal processing error"
        ∉ strFields (kidFailSafe "error" (.str "Internal Processing Error")) :=
  ⟨rfl, rfl, by decide⟩

/-- C7 amended: every non-`HTTPException` exception raised by the age
service makes `age_check` return the terminal Decision
`{age_group = "Kid", confidence = 0.0, forced_safety = true}` whose
reason text is `"Internal Processing Error"`, stored under the `"error"`
key. -/
theorem c7_amended_internal_error_decision (env : Env) (img : String) (bs arr : List Nat)
    (m : String) (h0 : img ≠ "") (hb : env.b64decode img = .ok bs)
    (hp : env.pilToRGBArray bs = .ok arr)
    (hx : env.detect_and_predict arr = .raiseExc m) :
    age_check env img
      = .response (.dict [("age_group", .str "Kid"), ("confidence", .floatv 0),
          ("forced_safety", .boolv true), ("error", .str "Internal Processing Error")]) :=
  age_check_service_raiseExc env img bs arr m h0 hb hp hx

theorem c7_amended_internal_error_decision_witness :
    age_check (testEnv (.raiseExc "model crash")) "aW1n"
      = .response (.dict [("age_group", .str "Kid"), ("confidence", .floatv 0),
          ("forced_safety", .boolv true), ("error", .str "Internal Processing Error")]) :=
  c7_amended_internal_error_decision (testEnv (.raiseExc "model crash")) "aW1n"
    [1, 2, 3] [1, 2, 3] "model crash" (by decide) rfl rfl rfl

/-- C9: whenever the service result is not a dict-like value with a
truthy `"error"` entry — no `get` attribute, or a falsy `"error"` value —
`age_check` bypasses the fail-safe branch and returns the result to the
caller verbatim, with no validation or normalization. -/
theorem c9_verbatim_passthrough (env : Env) (img : String) (bs arr : List Nat) (r : PyVal)
    (h0 : img ≠ "") (hb : env.b64decode img = .ok bs) (hp : env.pilToRGBArray bs = .ok arr)
    (hsvc : env.detect_and_predict arr = .ok r)
    (hcond : hasGet r = false ∨ truthy (pyGet r "error") = false) :
    age_check env img = .response r :=
  age_check_service_ok_verbatim env img bs arr r h0 hb hp hsvc
    (Bool.and_eq_false_iff.mpr hcond)

theorem c9_verbatim_passthrough_witness :
    age_check (testEnv (.ok (.dict [("error", .str "")]))) "aW1n"
      = .response (.dict [("error", .str "")]) :=
  c9_verbatim_passthrough (testEnv (.ok (.dict [("error", .str "")]))) "aW1n"
    [1, 2, 3] [1, 2, 3] (.dict [("error", .str "")]) (by decide) rfl rfl rfl
    (Or.inr rfl)

/-- C10: a payload that is not valid base64 (`binascii.Error`, a
`ValueError` subclass, at `b64decode`) gets the same
HTTP 400 "Invalid image format" fault as a payload whose decoded bytes
PIL cannot identify; the two failure causes produce identical outcomes
for the caller. -/
theorem c10_bad_base64_same_fault (env : Env) (img₁ img₂ : String) (bs : List Nat)
    (h₁ : img₁ ≠ "") (h₂ : img₂ ≠ "")
    (hb₁ : env.b64decode img₁ = .valueError)
    (hb₂ : env.b64decode img₂ = .ok bs) (hp : env.pilToRGBArray bs = .valueError) :
    age_check env img₁ = .httpError 400 "Invalid image format"
    ∧ age_check env img₂ = .httpError 400 "Invalid image format"
    ∧ age_check env img₁ = age_check env img₂ := by
  have e₁ := age_check_b64_valueError env img₁ h₁ hb₁
  have e₂ := age_check_pil_valueError env img₂ bs h₂ hb₂ hp
  exact ⟨e₁, e₂, by rw [e₁, e₂]⟩

theorem c10_bad_base64_same_fault_witness :
    age_check (testEnv (.ok noFaceResult)) "bad!" = .httpError 400 "Invalid image format"
    ∧ age_check (testEnv (.ok noFaceResult)) "==" = .httpError 400 "Invalid image format"
    ∧ age_check (testEnv (.ok noFaceResult)) "bad!"
        = age_check (testEnv (.ok noFaceResult)) "==" :=
  c10_bad_base64_same_fault (testEnv (.ok noFaceResult)) "bad!" "==" []
    (by decide) (by decide) rfl rfl rfl

/-- C8: every Decision record returned by `age_check` carries the fields
`age_group` (string), `confidence` (float), `forced_safety` (bool), and
at most one optional message/reason string — on every return path,
the verbatim path included (service results spec-modelled). -/
theorem c8_response_well_formed (env : Env) (hs : SpecService env) (img : String)
    (v : PyVal) (hresp : age_check env img = .response v) : isDecision v = true := by
  rcases age_check_spec_shape env hs img with ⟨d, hd⟩ | ⟨w, hw, hdec, _⟩
  · rw [hresp] at hd
    exact AgeCheckResult.noConfusion hd
  · rw [hresp] at hw
    injection hw with hvw
    rw [hvw]
    exact hdec

theorem c8_response_well_formed_witness :
    isDecision (kidFailSafe "msg" (.str "no face detected")) = true :=
  c8_response_well_formed (testEnv (.ok noFaceResult))
    (fun _ => specOutcomeOK_ok_error rfl rfl rfl) "aW1n"
    (kidFailSafe "msg" (.str "no face detected")) rfl

end AgeX
